import Mathlib

/-!
Verification of the runner shim `scripts/run-tests.js`.

The script is a straight-line Node program:

  const root = path.join(__dirname, "..");
  const parent = path.join(root, "..");
  const env = { ...process.env, PYTHONPATH: parent };
  const r = spawnSync("python",
    ["-m", "unittest", "discover", "-s", "tests", "-p", "test_*.py", "-v"],
    { cwd: root, env, stdio: "inherit" });
  process.exit(r.status !== null ? r.status : 1);

Embedding choices:
- A directory path is a list of segments of an absolute, already normalised
  path (no "." or ".." segments).  On such paths Node's
  `path.join(p, "..")` is exactly `List.dropLast` (`path.join("/", "..")`
  stays `/`, matching `dropLast [] = []`).
- An environment mapping is a function from variable names to optional
  values; the JS spread `{ ...process.env, PYTHONPATH: parent }` becomes a
  function that overrides the one key and passes every other key through.
- The child process is external: its behaviour is an oracle from the spawn
  call to a `SpawnOutcome`.  `r.status` is `some code` when the child
  exited with a status, `none` when no status was available (launch
  failure or abnormal termination), mirroring `number | null`.
- The script never mutates `process.env` and never reads `process.argv`;
  the embedding `run` therefore returns the ambient environment unchanged
  and ignores the argument vector it is handed.
-/

/-- An environment mapping: variable name to optional value
(`process.env` as a total lookup function). -/
abbrev Env := String → Option String

/-- A directory as the segment list of an absolute, normalised path. -/
abbrev Dir := List String

/-- Node's `path.join(p, "..")` on an absolute normalised path: drop the
last segment (the join of the filesystem root with ".." is the root). -/
def joinDotDot (p : Dir) : Dir := p.dropLast

/-- Render a segment list as the absolute path string, as it would be
stored into the environment value. -/
def pathToString (p : Dir) : String := "/" ++ String.intercalate "/" p

/-- The startup world of the script: `__dirname` (the directory containing
`run-tests.js`) and the ambient `process.env`. -/
structure World where
  dirname : Dir
  ambient : Env

/-- `const root = path.join(__dirname, "..")`. -/
def root (w : World) : Dir := joinDotDot w.dirname

/-- `const parent = path.join(root, "..")`. -/
def parent (w : World) : Dir := joinDotDot (root w)

/-- `const env = { ...process.env, PYTHONPATH: parent }`: a copy of the
ambient environment with the key `PYTHONPATH` overridden. -/
def childEnv (w : World) : Env :=
  fun k => if k = "PYTHONPATH" then some (pathToString (parent w)) else w.ambient k

/-- The stdio disposition requested from `spawnSync`. -/
inductive StdioMode where
  | inherit
  | pipe
  | ignore
deriving DecidableEq

/-- One invocation of `spawnSync`: executable name, argument list, working
directory, environment, stdio disposition. -/
structure SpawnCall where
  cmd : String
  args : List String
  cwd : Dir
  env : Env
  stdio : StdioMode

/-- What the external child did: exited reporting a status code, or no
status was obtainable (launch failure, or killed before reporting). -/
inductive SpawnOutcome where
  | exited (code : Nat)
  | noStatus
deriving DecidableEq

/-- The `status` field of the `spawnSync` result: `number | null`. -/
def SpawnOutcome.status : SpawnOutcome → Option Nat
  | .exited code => some code
  | .noStatus => none

/-- The single `spawnSync` call composed by the script. -/
def spawnSyncCall (w : World) : SpawnCall :=
  { cmd := "python"
    args := ["-m", "unittest", "discover", "-s", "tests", "-p", "test_*.py", "-v"]
    cwd := root w
    env := childEnv w
    stdio := .inherit }

/-- The observable result of one run of the script: the spawn calls it
issued, its own exit status, and the ambient environment it leaves behind. -/
structure RunResult where
  calls : List SpawnCall
  exitCode : Nat
  finalAmbient : Env

/-- One run of the script.  `argv` is the argument vector handed to the
shim; the script body never reads `process.argv`, so it is unused.  The
external child's behaviour is the `oracle`.  The exit status is
`r.status !== null ? r.status : 1`; `process.env` is never assigned, so
the final ambient environment is the initial one. -/
def run (w : World) (argv : List String) (oracle : SpawnCall → SpawnOutcome) :
    RunResult :=
  let call := spawnSyncCall w
  let r := oracle call
  { calls := [call]
    exitCode := match r.status with
      | some code => code
      | none => 1
    finalAmbient := w.ambient }

/-- A concrete world used by the witnesses: the script installed at
`/home/repo/scripts/run-tests.js` with an ambient environment holding one
unrelated variable. -/
def w0 : World :=
  { dirname := ["home", "repo", "scripts"]
    ambient := fun k => if k = "PATH" then some "/usr/bin" else none }

/-- A concrete external child used by the witnesses: it exits 0. -/
def oracle0 : SpawnCall → SpawnOutcome := fun _ => .exited 0

/-! ## Theorems -/

/-- C1: for every run in which the child terminates with exit status `n`,
the shim's own exit status equals exactly `n` (in particular 0 for 0 and
`n ≠ 0` for `n ≠ 0`). -/
theorem exit_propagates_child_status (w : World) (argv : List String)
    (oracle : SpawnCall → SpawnOutcome) (n : Nat)
    (h : oracle (spawnSyncCall w) = .exited n) :
    (run w argv oracle).exitCode = n := by
  simp [run, h, SpawnOutcome.status]

/-- Witness for C1: with a child exiting 3 the shim exits 3, and with a
child exiting 0 the shim exits 0. -/
theorem exit_propagates_child_status_witness :
    (run w0 [] (fun _ => .exited 3)).exitCode = 3 ∧
      (run w0 [] (fun _ => .exited 0)).exitCode = 0 :=
  ⟨exit_propagates_child_status w0 [] (fun _ => .exited 3) 3 rfl,
   exit_propagates_child_status w0 [] (fun _ => .exited 0) 0 rfl⟩

/-- C2: for every run in which no exit status can be obtained from the
child (launch failure or abnormal termination before reporting), the shim
exits with status exactly 1. -/
theorem exit_one_when_no_status (w : World) (argv : List String)
    (oracle : SpawnCall → SpawnOutcome)
    (h : oracle (spawnSyncCall w) = .noStatus) :
    (run w argv oracle).exitCode = 1 := by
  simp [run, h, SpawnOutcome.status]

/-- Witness for C2: when the spawn reports no status the shim exits 1. -/
theorem exit_one_when_no_status_witness :
    (run w0 [] (fun _ => .noStatus)).exitCode = 1 :=
  exit_one_when_no_status w0 [] (fun _ => .noStatus) rfl

/-- C3: for every ambient environment, the environment passed to the child
maps `PYTHONPATH` to the parent of the tool's root directory, whatever the
ambient binding of `PYTHONPATH` was (override, not merge). -/
theorem childEnv_pythonpath_overridden (d : Dir) (a : Env) :
    childEnv ⟨d, a⟩ "PYTHONPATH" = some (pathToString (parent ⟨d, a⟩)) := by
  simp [childEnv]

/-- C4: with the script at `<repoDir>/scripts/run-tests.js` (so `__dirname`
is `repoDir ++ ["scripts"]`), the computed root is `repoDir`, the
directory containing the tool, and the computed parent is that root's
parent directory. -/
theorem root_and_parent_paths (w : World) (repoDir : Dir)
    (h : w.dirname = repoDir ++ ["scripts"]) :
    root w = repoDir ∧ parent w = repoDir.dropLast := by
  refine ⟨?_, ?_⟩
  · simp [root, joinDotDot, h]
  · simp [parent, root, joinDotDot, h]

/-- Witness for C4: at the concrete world, root is the repository
directory and parent is one level above it. -/
theorem root_and_parent_paths_witness :
    root w0 = ["home", "repo"] ∧ parent w0 = (["home", "repo"] : Dir).dropLast :=
  root_and_parent_paths w0 ["home", "repo"] rfl

/-- C5: every run issues exactly one spawn call, invoking `python` with the
fixed argument list `-m unittest discover -s tests -p test_*.py -v`, with
working directory the root path, the built environment, and stdio
inherited (streams connected directly, no capturing). -/
theorem single_spawn_call (w : World) (argv : List String)
    (oracle : SpawnCall → SpawnOutcome) :
    (run w argv oracle).calls =
      [{ cmd := "python"
         args := ["-m", "unittest", "discover", "-s", "tests", "-p", "test_*.py", "-v"]
         cwd := root w
         env := childEnv w
         stdio := .inherit }] := rfl

/-- C6: the shim exits 0 only if the child was launched and itself exited
with status 0; a launch failure never surfaces as exit 0. -/
theorem exit_zero_only_on_child_success (w : World) (argv : List String)
    (oracle : SpawnCall → SpawnOutcome)
    (h : (run w argv oracle).exitCode = 0) :
    oracle (spawnSyncCall w) = .exited 0 := by
  cases ho : oracle (spawnSyncCall w) with
  | exited code =>
    have : code = 0 := by simpa [run, ho, SpawnOutcome.status] using h
    simp [ho, this]
  | noStatus =>
    exfalso
    simp [run, ho, SpawnOutcome.status] at h

/-- Witness for C6: a run that exits 0, whose child indeed exited 0. -/
theorem exit_zero_only_on_child_success_witness :
    oracle0 (spawnSyncCall w0) = .exited 0 :=
  exit_zero_only_on_child_success w0 [] oracle0 rfl

/-- C7: the ambient environment of the invoking process is left unmodified
by the run: the mapping handed to the child is a copy and building it does
not mutate the parent's environment. -/
theorem ambient_env_unmodified (w : World) (argv : List String)
    (oracle : SpawnCall → SpawnOutcome) :
    (run w argv oracle).finalAmbient = w.ambient := rfl

/-- C8: every ambient variable other than `PYTHONPATH` reaches the child's
environment with its ambient value unchanged. -/
theorem childEnv_passthrough (w : World) (k : String)
    (h : k ≠ "PYTHONPATH") :
    childEnv w k = w.ambient k := by
  simp [childEnv, h]

/-- Witness for C8: the unrelated variable `PATH` passes through
unchanged. -/
theorem childEnv_passthrough_witness :
    childEnv w0 "PATH" = w0.ambient "PATH" :=
  childEnv_passthrough w0 "PATH" (by decide)

/-- C9: the shim's behaviour is independent of its own command-line
arguments: two invocations differing only in `argv` produce identical
spawn calls, environments and exit status. -/
theorem run_ignores_argv (w : World) (argv1 argv2 : List String)
    (oracle : SpawnCall → SpawnOutcome) :
    run w argv1 oracle = run w argv2 oracle := rfl

/-- C10: the concrete external names are fixed constants: the interpreter
executable is `"python"`, and the one variable the child environment adds
or overrides is named `"PYTHONPATH"`. -/
theorem fixed_external_names (w : World) :
    (spawnSyncCall w).cmd = "python" ∧
      (spawnSyncCall w).env "PYTHONPATH" = some (pathToString (parent w)) ∧
      ∀ k : String, (spawnSyncCall w).env k ≠ w.ambient k → k = "PYTHONPATH" := by
  refine ⟨rfl, by simp [spawnSyncCall, childEnv], ?_⟩
  intro k hk
  by_contra hne
  exact hk (by simp [spawnSyncCall, childEnv, hne])

/-- Witness for C10: at the concrete world the names evaluate as stated,
and the inner implication discharges at the concrete key `PATH`. -/
theorem fixed_external_names_witness :
    (spawnSyncCall w0).cmd = "python" ∧
      ((spawnSyncCall w0).env "PATH" ≠ w0.ambient "PATH" → ("PATH" : String) = "PYTHONPATH") :=
  ⟨(fixed_external_names w0).1, (fixed_external_names w0).2.2 "PATH"⟩
